import Mathlib

/-!
Shallow embedding of the ShellRacingRemote BLE controller (control.py and
test.py). Bytes are modelled as natural numbers below 256 inside `List Nat`;
Python integers are `Int`. Python computes `mode & 0xFF` on arbitrary
integers, which agrees with `mode % 256` under Python semantics (result in
[0, 256)); Lean `Int` `%` is `Int.emod`, which has the same behaviour for a
positive modulus.
-/

namespace ShellRacing

/-- ControlState dataclass from control.py (defaults as in the source). -/
structure ControlState where
  mode : Int := 1
  throttle : Int := 0
  steering : Int := 0
  lights : Bool := false
  turbo : Bool := false
  donut : Bool := false
  battery_pct : Option Nat := none
  last_payload : List Nat := []
  last_status_hex : String := ""
  message : String := ""
  deriving DecidableEq, Repr

/-- build_control_payload from control.py: the 8-byte control packet. -/
def build_control_payload (state : ControlState) : List Nat :=
  [(state.mode % 256).toNat,
   if state.throttle > 0 then 1 else 0,
   if state.throttle < 0 then 1 else 0,
   if state.steering < 0 then 1 else 0,
   if state.steering > 0 then 1 else 0,
   if state.lights then 1 else 0,
   if state.turbo then 1 else 0,
   if state.donut then 1 else 0]

/-- Result of decode_status_payload. The Python function returns a dict; the
three possible key sets become the three constructors, each carrying the
`length` entry the dict always holds. -/
inductive Telemetry where
  | batteryPercent (length : Nat) (battery_pct : Nat)
  | statusFrame (length mode forward reverse left right lights turbo donut : Nat)
  | unrecognized (length : Nat) (raw : String)
  deriving DecidableEq, Repr

/-- Lowercase hexadecimal digit, as produced by Python bytes.hex(). -/
def hexDigit (n : Nat) : Char :=
  if n < 10 then Char.ofNat (48 + n) else Char.ofNat (87 + n)

/-- Two lowercase hex digits for one byte. -/
def byteHex (b : Nat) : String :=
  String.mk [hexDigit (b / 16), hexDigit (b % 16)]

/-- bytes.hex() on a whole payload: two hex digits per byte, concatenated. -/
def bytesHex (data : List Nat) : String :=
  String.join (data.map byteHex)

/-- decode_status_payload from control.py: length 1 is a battery reading,
length 8 is a status frame, anything else is kept raw as hex. -/
def decode_status_payload (data : List Nat) : Telemetry :=
  let length := data.length
  if length = 1 then
    .batteryPercent length (data.getD 0 0)
  else if length = 8 then
    .statusFrame length (data.getD 0 0) (data.getD 1 0) (data.getD 2 0)
      (data.getD 3 0) (data.getD 4 0) (data.getD 5 0) (data.getD 6 0)
      (data.getD 7 0)
  else
    .unrecognized length (bytesHex data)

end ShellRacing

namespace TestTool

/-- build_control_payload from test.py (the validation tool copy): same
packet layout, taking the fields as separate arguments. -/
def build_control_payload (throttle steering : Int)
    (lights turbo donut : Bool) (mode : Int) : List Nat :=
  let forward := if throttle > 0 then 1 else 0
  let reverse := if throttle < 0 then 1 else 0
  let turn_left := if steering < 0 then 1 else 0
  let turn_right := if steering > 0 then 1 else 0
  [(mode % 256).toNat, forward, reverse, turn_left, turn_right,
   if lights then 1 else 0, if turbo then 1 else 0, if donut then 1 else 0]

end TestTool

namespace ShellRacing

/-- QueueItem values put on the ui_queue: the (kind, data) pairs of
control.py become one constructor per kind. -/
inductive QueueItem where
  | message (text : String)
  | warn (text : String)
  | error (text : String)
  | connected
  | disconnected
  | status
  | battery (value : Nat)
  | payload (p : List Nat)
  | shutdown
  deriving DecidableEq, Repr

/-- Mutable attributes of BleController. The live BleakClient handle is
modelled as a Bool (`client = true` when `self.client` holds a transport
handle); the internal asyncio primitives (stop event, write lock) have no
residue in the sequential model. -/
structure BleController where
  state : ControlState
  client : Bool := false
  status_notify : Bool := false
  battery_notify : Bool := false
  pending_payload : Option (List Nat) := none
  last_sent_payload : Option (List Nat) := none
  stopped : Bool := false
  deriving DecidableEq, Repr

/-- Result of one controller step: the updated controller, the QueueItems
handed to queue_ui in order, and the payloads of the write_gatt_char
attempts in order (an attempt is listed whether or not it succeeds). -/
abbrev StepResult := BleController × List QueueItem × List (List Nat)

/-- write_pending from control.py, with the transport write outcome passed
in as `writeOk`. Under the sequential (lock-held, interleaving-free)
semantics the while loop body runs at most once: the body clears the
pending slot and nothing inside the lock refills it, so after a successful
write the loop condition is already false. On failure the loop breaks with
the slot left cleared, the taken payload discarded. -/
def write_pending (writeOk : Bool) (c : BleController) : StepResult :=
  if c.client = false then (c, [], [])
  else
    match c.pending_payload with
    | none => (c, [], [])
    | some payload =>
      let c := { c with pending_payload := none }
      if writeOk then
        ({ c with last_sent_payload := some payload,
                  state := { c.state with last_payload := payload } },
         [.payload payload], [payload])
      else
        (c, [.error "ERROR sending command"], [payload])

/-- send_control from control.py: drop when stopped, suppress a payload that
equals the last sent one while nothing is pending, otherwise overwrite the
single pending slot and, when connected, drain. -/
def send_control (writeOk : Bool) (c : BleController)
    (payload : List Nat) : StepResult :=
  if c.stopped then (c, [], [])
  else if some payload = c.last_sent_payload ∧ c.pending_payload = none then
    (c, [], [])
  else
    let c := { c with pending_payload := some payload }
    if c.client then write_pending writeOk c else (c, [], [])

/-- send_pending from control.py: drain only when something is pending and
the transport is live. -/
def send_pending (writeOk : Bool) (c : BleController) : StepResult :=
  if c.pending_payload ≠ none ∧ c.client then write_pending writeOk c
  else (c, [], [])

/-- read_battery from control.py. `result` is the outcome of the GATT read:
none models a raised exception, some gives the bytes returned. -/
def read_battery (result : Option (List Nat)) (c : BleController) :
    BleController × List QueueItem :=
  match result with
  | none => (c, [.warn "Initial battery read failed"])
  | some [] => (c, [])
  | some (b :: _) =>
    ({ c with state := { c.state with battery_pct := some b } },
     [.battery b])

/-- request_battery from control.py. -/
def request_battery (result : Option (List Nat)) (c : BleController) :
    BleController × List QueueItem :=
  if c.stopped then (c, [])
  else if c.client = false then
    (c, [.message "Battery read queued; waiting for connection"])
  else read_battery result c

/-- battery_pct key lookup on a decoded payload: only the length-1 decode
carries the key. -/
def battery_pct_of (t : Telemetry) : Option Nat :=
  match t with
  | .batteryPercent _ v => some v
  | _ => none

/-- battery_handler from control.py: decode, read the battery_pct entry,
fall back to the first raw byte when the entry is absent and the payload is
non-empty; record and emit the value when one was found, otherwise emit a
plain status item. -/
def battery_handler (c : BleController) (payload : List Nat) :
    BleController × List QueueItem :=
  let decoded := decode_status_payload payload
  let battery := battery_pct_of decoded
  let battery :=
    match battery, payload with
    | none, b :: _ => some b
    | b, _ => b
  match battery with
  | some b =>
    ({ c with state := { c.state with battery_pct := some b } },
     [.battery b])
  | none => (c, [.status])

/-- enable_notifications from control.py: each subscription succeeds (flag
set) or fails (warning queued) independently. -/
def enable_notifications (statusOk batteryOk : Bool) (c : BleController) :
    BleController × List QueueItem :=
  let step1 : BleController × List QueueItem :=
    if statusOk then ({ c with status_notify := true }, [])
    else (c, [.warn "Status notify failed"])
  let c1 := step1.1
  let step2 : BleController × List QueueItem :=
    if batteryOk then ({ c1 with battery_notify := true }, [])
    else (c1, [.warn "Battery notify failed"])
  (step2.1, step1.2 ++ step2.2)

/-- disable_notifications from control.py: a no-op without a live client;
otherwise each active subscription is stopped best-effort, any stop_notify
exception swallowed, and the flag cleared in a finally block either way. -/
def disable_notifications (c : BleController) : BleController :=
  if c.client = false then c
  else { c with status_notify := false, battery_notify := false }

/-- stop from control.py: idempotent; the first call marks the controller
stopped, signals the stop event and tears down notifications. -/
def stop (c : BleController) : BleController :=
  if c.stopped then c
  else disable_notifications { c with stopped := true }

/-- Transport behaviour presented to one execution of run: whether the
connection attempt succeeds, the outcome of each notification subscription,
of the initial battery read, and of any drained write. -/
structure TransportBehavior where
  connectOk : Bool
  statusNotifyOk : Bool
  batteryNotifyOk : Bool
  batteryRead : Option (List Nat)
  writeOk : Bool
  deriving DecidableEq, Repr

/-- Way the connected body of run finishes: the stop event fired, the task
was cancelled from outside while waiting, or the transport raised after the
connection was up. -/
inductive RunExit where
  | stopSignal
  | cancelled
  | failed
  deriving DecidableEq, Repr

/-- run from control.py. Returns the final controller, the QueueItems in
order, the write attempts, and whether CancelledError was re-raised. The
try/except/finally shape becomes: connect failure takes the except branch
directly; otherwise the body runs to its exit, with `RunExit.failed`
standing for an exception after connect (caught, error queued) and
`RunExit.cancelled` for external cancellation (re-raised); the finally
block runs on every path. -/
def run (tb : TransportBehavior) (ex : RunExit) (c : BleController) :
    BleController × List QueueItem × List (List Nat) × Bool :=
  let ev0 : List QueueItem := [.message "Connecting"]
  if tb.connectOk = false then
    let evBody : List QueueItem := [.error "Connection error"]
    let c := disable_notifications c
    let c := { c with client := false }
    (c, ev0 ++ evBody ++ [.disconnected], [], false)
  else
    let c := { c with client := true }
    let ev1 : List QueueItem := [.connected]
    let r2 := enable_notifications tb.statusNotifyOk tb.batteryNotifyOk c
    let r3 := send_pending tb.writeOk r2.1
    let r4 := read_battery tb.batteryRead r3.1
    let evx : List QueueItem :=
      match ex with
      | .stopSignal => []
      | .cancelled => []
      | .failed => [.error "Connection error"]
    let c := disable_notifications r4.1
    let c := { c with client := false }
    (c, ev0 ++ ev1 ++ r2.2 ++ r3.2.1 ++ r4.2 ++ evx ++ [.disconnected],
     r3.2.2, ex = RunExit.cancelled)

/-- asyncio.Queue with the Python semantics of maxsize: a positive maxsize
bounds the queue, maxsize zero (the asyncio default) means unbounded. -/
structure AsyncQueue (α : Type) where
  maxsize : Nat
  items : List α
  deriving DecidableEq, Repr

/-- asyncio.Queue.full: always false for an unbounded queue. -/
def AsyncQueue.full {α : Type} (q : AsyncQueue α) : Bool :=
  decide (0 < q.maxsize) && decide (q.maxsize ≤ q.items.length)

/-- asyncio.Queue.put_nowait: none models a raised QueueFull. -/
def AsyncQueue.putNowait {α : Type} (q : AsyncQueue α) (x : α) :
    Option (AsyncQueue α) :=
  if q.full then none else some { q with items := q.items ++ [x] }

/-- queue_ui from control.py: put_nowait with QueueFull swallowed, so a push
onto a full queue silently drops the item. -/
def queue_ui {α : Type} (q : AsyncQueue α) (item : α) : AsyncQueue α :=
  match q.putNowait item with
  | some q2 => q2
  | none => q

/-- Event channel as PygameApp builds it: asyncio.Queue() with the
default maxsize of zero, i.e. unbounded. -/
def pygameAppQueue : AsyncQueue QueueItem := { maxsize := 0, items := [] }

end ShellRacing

namespace ShellRacing

/-- Helper: a 1-or-0 flag byte never exceeds 1. -/
theorem if_bit_le_one (c : Prop) [Decidable c] :
    (if c then (1 : Nat) else 0) ≤ 1 := by
  split <;> simp

/-- C1: for every ControlState, build_control_payload returns exactly the
8 bytes mode mod 256, throttle sign split into forward and reverse bits,
steering sign split into left and right bits, then lights, turbo, donut as
1 or 0; every flag byte is 0 or 1, forward and reverse are never both 1,
left and right are never both 1, and the validation-tool copy of the
builder in test.py produces the identical bytes. -/
theorem build_control_payload_spec (state : ControlState) :
    build_control_payload state =
      [(state.mode % 256).toNat,
       if state.throttle > 0 then 1 else 0,
       if state.throttle < 0 then 1 else 0,
       if state.steering < 0 then 1 else 0,
       if state.steering > 0 then 1 else 0,
       if state.lights then 1 else 0,
       if state.turbo then 1 else 0,
       if state.donut then 1 else 0] ∧
    ((build_control_payload state).getD 1 0 ≤ 1 ∧
     (build_control_payload state).getD 2 0 ≤ 1 ∧
     (build_control_payload state).getD 3 0 ≤ 1 ∧
     (build_control_payload state).getD 4 0 ≤ 1 ∧
     (build_control_payload state).getD 5 0 ≤ 1 ∧
     (build_control_payload state).getD 6 0 ≤ 1 ∧
     (build_control_payload state).getD 7 0 ≤ 1) ∧
    ((build_control_payload state).getD 1 0 = 0 ∨
     (build_control_payload state).getD 2 0 = 0) ∧
    ((build_control_payload state).getD 3 0 = 0 ∨
     (build_control_payload state).getD 4 0 = 0) ∧
    TestTool.build_control_payload state.throttle state.steering
      state.lights state.turbo state.donut state.mode =
      build_control_payload state := by
  refine ⟨rfl,
    ⟨if_bit_le_one _, if_bit_le_one _, if_bit_le_one _, if_bit_le_one _,
     if_bit_le_one _, if_bit_le_one _, if_bit_le_one _⟩, ?_, ?_, rfl⟩
  · rcases le_or_lt state.throttle 0 with h | h
    · exact Or.inl (if_neg (by omega))
    · exact Or.inr (if_neg (by omega))
  · rcases le_or_lt 0 state.steering with h | h
    · exact Or.inl (if_neg (by omega))
    · exact Or.inr (if_neg (by omega))

/-- C2: decoding the payload produced by build_control_payload always takes
the length-8 branch and yields a statusFrame whose mode, forward, reverse,
left, right, lights, turbo and donut fields equal the corresponding bytes
of the payload, in the positional order the builder wrote them. -/
theorem decode_encode_roundtrip (state : ControlState) :
    decode_status_payload (build_control_payload state) =
      Telemetry.statusFrame 8
        ((build_control_payload state).getD 0 0)
        ((build_control_payload state).getD 1 0)
        ((build_control_payload state).getD 2 0)
        ((build_control_payload state).getD 3 0)
        ((build_control_payload state).getD 4 0)
        ((build_control_payload state).getD 5 0)
        ((build_control_payload state).getD 6 0)
        ((build_control_payload state).getD 7 0) := rfl

/-- C3: decode_status_payload is total over byte lists of every length:
length 1 yields batteryPercent of byte 0, length 8 yields the positional
statusFrame, every other length (including 0) yields unrecognized with the
length and the lowercase hex rendering of the raw bytes; in particular the
three concrete scenarios of the spec hold. -/
theorem decode_status_payload_total :
    (∀ b : Nat, decode_status_payload [b] = .batteryPercent 1 b) ∧
    (∀ b0 b1 b2 b3 b4 b5 b6 b7 : Nat,
      decode_status_payload [b0, b1, b2, b3, b4, b5, b6, b7] =
        .statusFrame 8 b0 b1 b2 b3 b4 b5 b6 b7) ∧
    (∀ data : List Nat, data.length ≠ 1 → data.length ≠ 8 →
      decode_status_payload data =
        .unrecognized data.length (bytesHex data)) ∧
    decode_status_payload [42] = .batteryPercent 1 42 ∧
    decode_status_payload [1, 1, 0, 0, 1, 1, 1, 0] =
      .statusFrame 8 1 1 0 0 1 1 1 0 ∧
    decode_status_payload [9, 9, 9] = .unrecognized 3 "090909" := by
  refine ⟨fun b => rfl, fun b0 b1 b2 b3 b4 b5 b6 b7 => rfl, ?_,
    by decide, by decide, by decide⟩
  intro data h1 h8
  simp [decode_status_payload, h1, h8]

/-- C3 witness: the other-length branch of decode_status_payload_total
evaluated at the concrete two-byte input. -/
theorem decode_status_payload_total_witness :
    decode_status_payload [9, 9] = .unrecognized 2 "0909" :=
  decode_status_payload_total.2.2.1 [9, 9] (by decide) (by decide)

/-- Fresh controller as the BleController constructor builds it. -/
def initialController : BleController := { state := {} }

/-- C4: with the session live (not stopped) and the transport not yet
connected, submitting p1 and then a different p2 performs no write, and the
drain that runs once the connection comes up performs exactly one write
attempt, carrying p2: the second submit overwrote p1 in the single pending
slot and p1 is never written. -/
theorem send_control_coalesces (wOk : Bool) (c : BleController)
    (p1 p2 : List Nat) (hstop : c.stopped = false) (hcli : c.client = false)
    (hne : p1 ≠ p2) :
    (send_control wOk c p1).2.2 = [] ∧
    (send_control wOk (send_control wOk c p1).1 p2).2.2 = [] ∧
    (send_pending wOk
        { (send_control wOk (send_control wOk c p1).1 p2).1 with
            client := true }).2.2 = [p2] ∧
    (send_control wOk (send_control wOk c p1).1 p2).1.pending_payload =
      some p2 := by
  by_cases hsup : some p1 = c.last_sent_payload ∧ c.pending_payload = none
  · obtain ⟨h1, h2⟩ := hsup
    have hne2 : p2 ≠ p1 := fun h => hne h.symm
    simp [send_control, send_pending, write_pending, hstop, hcli, ← h1,
      h2, hne2]
    split <;> simp
  · simp [send_control, send_pending, write_pending, hstop, hcli, hsup]
    split <;> simp

/-- C4 witness: the coalescing theorem evaluated on the fresh controller
with the two concrete payloads 01 and 02. -/
theorem send_control_coalesces_witness :
    (send_control true initialController [1]).2.2 = [] ∧
    (send_control true (send_control true initialController [1]).1
        [2]).2.2 = [] ∧
    (send_pending true
        { (send_control true (send_control true initialController [1]).1
              [2]).1 with client := true }).2.2 = [[2]] ∧
    (send_control true (send_control true initialController [1]).1
        [2]).1.pending_payload = some [2] :=
  send_control_coalesces true initialController [1] [2] rfl rfl
    (by decide)

/-- C5: when the submitted payload equals the last payload actually sent
and the pending slot is empty, send_control is a no-op: no write attempt,
no queued item, controller unchanged; and a second identical submit is
again the same no-op. -/
theorem send_control_idempotent_suppression (wOk : Bool)
    (c : BleController) (p : List Nat)
    (hsent : c.last_sent_payload = some p)
    (hpend : c.pending_payload = none) :
    send_control wOk c p = (c, [], []) ∧
    send_control wOk (send_control wOk c p).1 p = (c, [], []) := by
  by_cases hs : c.stopped
  · simp [send_control, hs]
  · simp [send_control, hs, hsent, hpend]

/-- C5 witness: the suppression theorem evaluated on a controller whose
last sent payload is 05 with nothing pending. -/
theorem send_control_idempotent_suppression_witness :
    send_control true
      { initialController with last_sent_payload := some [5] } [5] =
      ({ initialController with last_sent_payload := some [5] }, [], []) :=
  (send_control_idempotent_suppression true
    { initialController with last_sent_payload := some [5] } [5]
    rfl rfl).1

/-- Connected controller with payload 07 pending, about to hit a failing
transport write. -/
def failDrainController : BleController :=
  { state := {}, client := true, pending_payload := some [7] }

/-- C6 counterexample: on a failing write the drain emits the error item
and stops, and the payload is not recorded as last sent, but the pending
slot is left empty, not holding the failed payload: write_pending removed
the payload from the slot before the attempt and does not put it back, so
the failed payload is lost rather than requeued. -/
theorem write_pending_failure_drops_payload :
    (write_pending false failDrainController).1.pending_payload = none ∧
    (write_pending false failDrainController).2.1 =
      [.error "ERROR sending command"] ∧
    (write_pending false failDrainController).1.last_sent_payload =
      none ∧
    (write_pending false failDrainController).2.2 = [[7]] := by
  decide

/-- C6 amended: on a failing write the drain makes exactly one attempt,
carrying the pending payload, emits an Error item and stops; the payload
was taken out of the pending slot before the attempt and is not restored,
so it is dropped rather than left queued, and it is not recorded as last
sent. Separately, a drain against a controller with no live transport
(disconnection) returns at once and leaves the pending slot untouched. -/
theorem write_pending_failure_spec (wOk : Bool) (c : BleController)
    (p : List Nat) (hcli : c.client = true)
    (hpend : c.pending_payload = some p) :
    write_pending false c =
      ({ c with pending_payload := none },
       [.error "ERROR sending command"], [p]) ∧
    (∀ c2 : BleController, c2.client = false →
      write_pending wOk c2 = (c2, [], [])) := by
  constructor
  · simp [write_pending, hcli, hpend]
  · intro c2 h2
    simp [write_pending, h2]

/-- C6 witness: the amended drain-failure theorem evaluated on the
concrete connected controller with payload 07 pending. -/
theorem write_pending_failure_spec_witness :
    write_pending false failDrainController =
      ({ failDrainController with pending_payload := none },
       [.error "ERROR sending command"], [[7]]) :=
  (write_pending_failure_spec true failDrainController [7] rfl rfl).1

/-- C7: starting from the constructor state, every exit of run - connect
failure, normal stop, transport error after connecting, or external
cancellation - runs the teardown exactly once: the queued items contain
exactly one disconnected item and end with it, the live transport handle
is cleared, and neither notification flag is left active. -/
theorem run_teardown_always (tb : TransportBehavior) (ex : RunExit)
    (c : BleController) (hcli : c.client = false)
    (hsn : c.status_notify = false) (hbn : c.battery_notify = false) :
    (run tb ex c).2.1.count QueueItem.disconnected = 1 ∧
    (run tb ex c).2.1.getLast? = some QueueItem.disconnected ∧
    (run tb ex c).1.client = false ∧
    (run tb ex c).1.status_notify = false ∧
    (run tb ex c).1.battery_notify = false := by
  obtain ⟨cok, sok, bok, bread, wok⟩ := tb
  cases cok
  · simp [run, disable_notifications, hcli, hsn, hbn]
  · cases sok <;> cases bok <;>
      rcases bread with _ | ⟨_ | ⟨b, rest⟩⟩ <;> cases ex <;>
      cases hp : c.pending_payload <;> cases wok <;>
      simp [run, enable_notifications, send_pending, write_pending,
        read_battery, disable_notifications, hp, List.count_cons,
        List.getLast?]

/-- C7 witness: the teardown theorem evaluated for a transport whose
connection attempt fails, on the fresh controller. -/
theorem run_teardown_always_witness :
    (run ⟨false, true, true, none, true⟩ RunExit.stopSignal
        initialController).2.1.count QueueItem.disconnected = 1 ∧
    (run ⟨false, true, true, none, true⟩ RunExit.stopSignal
        initialController).2.1.getLast? = some QueueItem.disconnected ∧
    (run ⟨false, true, true, none, true⟩ RunExit.stopSignal
        initialController).1.client = false ∧
    (run ⟨false, true, true, none, true⟩ RunExit.stopSignal
        initialController).1.status_notify = false ∧
    (run ⟨false, true, true, none, true⟩ RunExit.stopSignal
        initialController).1.battery_notify = false :=
  run_teardown_always ⟨false, true, true, none, true⟩ RunExit.stopSignal
    initialController rfl rfl rfl

/-- C8 counterexample: the event channel PygameApp actually constructs has
maxsize 0, which in asyncio semantics means unbounded: its own full check
is false no matter how many items are queued, so queue_ui never drops and
the length grows past the only fixed capacity the object carries. Pushing
one item already gives length 1 over maxsize 0, and three pushes give
length 3 with the channel still reporting not full. -/
theorem event_channel_capacity_counterexample :
    pygameAppQueue.maxsize = 0 ∧
    (queue_ui pygameAppQueue QueueItem.status).items.length = 1 ∧
    (queue_ui (queue_ui (queue_ui pygameAppQueue QueueItem.status)
        QueueItem.status) QueueItem.status).items.length = 3 ∧
    (queue_ui (queue_ui (queue_ui pygameAppQueue QueueItem.status)
        QueueItem.status) QueueItem.status).full = false := by
  decide

/-- C8 amended: queue_ui does implement non-blocking bounded-FIFO push
with a drop-on-full policy, but only for a channel built with a positive
maxsize: there the length never exceeds maxsize, a push onto a full
channel drops the item leaving the retained items unchanged, and a push
onto a non-full channel appends in FIFO order. The channel PygameApp
builds, however, has maxsize 0 - unbounded in asyncio - so in the shipped
app every push appends and no item is ever dropped. -/
theorem queue_ui_backpressure (q : AsyncQueue QueueItem) (e : QueueItem)
    (hm : 0 < q.maxsize) (hlen : q.items.length ≤ q.maxsize) :
    (queue_ui q e).items.length ≤ q.maxsize ∧
    (q.items.length = q.maxsize → queue_ui q e = q) ∧
    (q.items.length < q.maxsize →
      (queue_ui q e).items = q.items ++ [e]) ∧
    (∀ q0 : AsyncQueue QueueItem, q0.maxsize = 0 →
      (queue_ui q0 e).items = q0.items ++ [e]) := by
  refine ⟨?_, ?_, ?_, ?_⟩
  · by_cases hfull : q.maxsize ≤ q.items.length
    · simp [queue_ui, AsyncQueue.putNowait, AsyncQueue.full, hm, hfull,
        hlen]
    · simp only [queue_ui, AsyncQueue.putNowait, AsyncQueue.full]
      simp [hm, hfull]
      omega
  · intro hfull
    simp [queue_ui, AsyncQueue.putNowait, AsyncQueue.full, hm, hfull]
  · intro hlt
    simp [queue_ui, AsyncQueue.putNowait, AsyncQueue.full, hm,
      Nat.not_le.mpr hlt]
  · intro q0 h0
    simp [queue_ui, AsyncQueue.putNowait, AsyncQueue.full, h0]

/-- C8 amended witness: the backpressure theorem evaluated on a concrete
channel of capacity 1 already holding one item: the push is dropped and
the channel is unchanged. -/
theorem queue_ui_backpressure_witness :
    queue_ui { maxsize := 1, items := [QueueItem.connected] }
        QueueItem.status =
      { maxsize := 1, items := [QueueItem.connected] } :=
  (queue_ui_backpressure
    { maxsize := 1, items := [QueueItem.connected] } QueueItem.status
    (by decide) (by decide)).2.1 rfl

/-- Controller after stop() with no live transport. -/
def stoppedController : BleController := { state := {}, stopped := true }

/-- Controller with a live transport handle. -/
def connectedController : BleController := { state := {}, client := true }

/-- C9 counterexample: request_battery on a stopped, unconnected
controller emits nothing at all - the stopped guard returns before the
deferral message the claim promises for every unconnected call - and a
successful read that returns zero bytes on a connected controller records
nothing and emits nothing, against the claim that success records and
emits the battery value. -/
theorem request_battery_counterexample :
    (stoppedController.client = false ∧
     request_battery none stoppedController = (stoppedController, [])) ∧
    (connectedController.client = true ∧
     request_battery (some []) connectedController =
       (connectedController, [])) := by
  decide

/-- C9 amended: when the controller is not stopped, request_battery on an
unconnected controller emits the deferral message; on a connected
controller it performs the read and emits a warning on failure, records
and emits the first byte on a success with data, and does nothing on a
success that returns zero bytes. A stopped controller ignores the call
entirely. -/
theorem request_battery_spec (result : Option (List Nat))
    (c : BleController) (hstop : c.stopped = false) :
    (c.client = false →
      request_battery result c =
        (c, [.message "Battery read queued; waiting for connection"])) ∧
    (c.client = true → result = none →
      request_battery result c =
        (c, [.warn "Initial battery read failed"])) ∧
    (c.client = true → result = some [] →
      request_battery result c = (c, [])) ∧
    (∀ b rest, c.client = true → result = some (b :: rest) →
      request_battery result c =
        ({ c with state := { c.state with battery_pct := some b } },
         [.battery b])) ∧
    (∀ c2 : BleController, c2.stopped = true →
      request_battery result c2 = (c2, [])) := by
  refine ⟨?_, ?_, ?_, ?_, ?_⟩
  · intro hnc
    simp [request_battery, hstop, hnc]
  · intro hc hr
    simp [request_battery, read_battery, hstop, hc, hr]
  · intro hc hr
    simp [request_battery, read_battery, hstop, hc, hr]
  · intro b rest hc hr
    simp [request_battery, read_battery, hstop, hc, hr]
  · intro c2 h2
    simp [request_battery, h2]

/-- C9 amended witness: the request_battery theorem evaluated on the
connected controller with a successful one-byte read of 77. -/
theorem request_battery_spec_witness :
    request_battery (some [77]) connectedController =
      ({ connectedController with
          state := { connectedController.state with
            battery_pct := some 77 } },
       [.battery 77]) :=
  (request_battery_spec (some [77]) connectedController rfl).2.2.2.1
    77 [] rfl rfl

/-- Helper: only the length-1 decode carries the battery_pct entry. -/
theorem battery_pct_of_decode_ne_one (data : List Nat)
    (h : data.length ≠ 1) :
    battery_pct_of (decode_status_payload data) = none := by
  simp only [decode_status_payload, h, if_false]
  split <;> simp [battery_pct_of]

/-- C10: a battery notification whose payload is non-empty but of a length
other than 1 - so its decode carries no battery_pct entry - makes the
handler fall back to the first raw byte: it records that byte as the
battery percentage and emits the battery item carrying it; only an empty
payload produces a plain status item, with the recorded battery value left
unchanged. -/
theorem battery_handler_fallback (c : BleController) (b : Nat)
    (rest : List Nat) (hlen : (b :: rest).length ≠ 1) :
    battery_handler c (b :: rest) =
      ({ c with state := { c.state with battery_pct := some b } },
       [.battery b]) ∧
    battery_handler c [] = (c, [.status]) ∧
    (battery_handler c []).1.state.battery_pct = c.state.battery_pct := by
  refine ⟨?_, rfl, rfl⟩
  simp [battery_handler, battery_pct_of_decode_ne_one (b :: rest) hlen]

/-- C10 witness: the fallback theorem evaluated on an 8-byte status-shaped
frame arriving on the battery characteristic: byte 0 (value 1) is recorded
and emitted as the battery percentage. -/
theorem battery_handler_fallback_witness :
    battery_handler initialController [1, 1, 0, 0, 1, 1, 1, 0] =
      ({ initialController with
          state := { initialController.state with
            battery_pct := some 1 } },
       [.battery 1]) :=
  (battery_handler_fallback initialController 1 [1, 0, 0, 1, 1, 1, 0]
    (by decide)).1

end ShellRacing
